import Mathlib

/-!
Verification of the pymata-express Firmata client core.

Definitions in this file are shallow embeddings of the Python source in
src/pymata_express/pymata_express.py (with constants from
src/pymata_express/private_constants.py).  Machine integers are modelled
as Nat (Python ints are unbounded), wall-clock timestamps and float
arithmetic as Rat, Python dicts as association lists, user callbacks as
opaque identifiers with every invocation recorded in an output list, and
Python exceptions as an Except error type.
-/

namespace PymataExpress

/-- Python exception kinds that the modelled code can raise. -/
inductive PyErr where
  | serialException
  | runtimeError
  | attributeError
  | keyError
  | indexError
deriving DecidableEq, Repr

/-- Python dict membership test: `k in d`. -/
def dictContains {β : Type} (m : List (Nat × β)) (k : Nat) : Bool :=
  m.any (fun p => p.1 == k)

/-- Python dict assignment `d[k] = v`: replace the binding if present,
otherwise append it. -/
def dictSet {β : Type} (m : List (Nat × β)) (k : Nat) (v : β) : List (Nat × β) :=
  match m with
  | [] => [(k, v)]
  | (k0, v0) :: rest =>
      if k0 = k then (k, v) :: rest else (k0, v0) :: dictSet rest k v

/-- Python dict lookup `d.get(k)` / `d[k]` (the caller decides whether a
miss is `KeyError` or `None`). -/
def dictGet {β : Type} (m : List (Nat × β)) (k : Nat) : Option β :=
  match m with
  | [] => none
  | (k0, v0) :: rest => if k0 = k then some v0 else dictGet rest k

/-- Python `del d[k]` without the KeyError check (callers test membership
first where the source does). -/
def dictDel {β : Type} (m : List (Nat × β)) (k : Nat) : List (Nat × β) :=
  match m with
  | [] => []
  | (k0, v0) :: rest => if k0 = k then rest else (k0, v0) :: dictDel rest k

/-- Constant `PrivateConstants.START_SYSEX`. -/
def START_SYSEX : Nat := 0xF0
/-- Constant `PrivateConstants.END_SYSEX`. -/
def END_SYSEX : Nat := 0xF7
/-- Constant `PrivateConstants.SPI_DATA`. -/
def SPI_DATA : Nat := 0x68
/-- Constant `PrivateConstants.SPI_TRANSFER`. -/
def SPI_TRANSFER : Nat := 0x02
/-- Constant `PrivateConstants.SPI_WRITE`. -/
def SPI_WRITE : Nat := 0x03
/-- Constant `PrivateConstants.SPI_READ`. -/
def SPI_READ : Nat := 0x04
/-- Constant `PrivateConstants.SONAR_CONFIG`. -/
def SONAR_CONFIG : Nat := 0x62
/-- Constant `PrivateConstants.SONAR_DATA`. -/
def SONAR_DATA : Nat := 0x63
/-- Constant `PrivateConstants.DHT_DATA`. -/
def DHT_DATA : Nat := 0x65
/-- Constant `PrivateConstants.SONAR`. -/
def SONAR : Nat := 0x0c
/-- Constant `PrivateConstants.INPUT`. -/
def INPUT : Nat := 0x00
/-- Constant `PrivateConstants.PULLUP`. -/
def PULLUP : Nat := 0x0b
/-- Constant `PrivateConstants.SET_PIN_MODE`. -/
def SET_PIN_MODE : Nat := 0xF4
/-- Constant `PrivateConstants.REPORT_DIGITAL`. -/
def REPORT_DIGITAL : Nat := 0xD0
/-- Constant `PrivateConstants.SYSTEM_RESET`. -/
def SYSTEM_RESET : Nat := 0xFF
/-- Constant `PrivateConstants.ANALOG_MESSAGE`. -/
def ANALOG_MESSAGE : Nat := 0xE0
/-- Constant `PrivateConstants.I2C_REQUEST`. -/
def I2C_REQUEST : Nat := 0x76
/-- Constant `PrivateConstants.I2C_READ`. -/
def I2C_READ : Nat := 0x08
/-- Constant `PrivateConstants.I2C_READ_CONTINUOUSLY`. -/
def I2C_READ_CONTINUOUSLY : Nat := 0x10
/-- Constant `PrivateConstants.I2C_END_TX_MASK`. -/
def I2C_END_TX_MASK : Nat := 0x40
/-- Constant `PrivateConstants.REPORTING_ENABLE`. -/
def REPORTING_ENABLE : Nat := 1
/-- Constant `PrivateConstants.REPORTING_DISABLE`. -/
def REPORTING_DISABLE : Nat := 0

/-- Function `_send_sysex`: the byte sequence written to the transport for a SysEx
command with the given payload (`chr(START_SYSEX) + chr(cmd) + data bytes
+ chr(END_SYSEX)`). -/
def sendSysexBytes (cmd : Nat) (data : List Nat) : List Nat :=
  START_SYSEX :: cmd :: data ++ [END_SYSEX]

/-! ## C9: 7-bit encode (pwm_write) / decode (_analog_message) -/

/-- Function `pwm_write` (pin < 16 branch): the 3-byte command
`[ANALOG_MESSAGE + pin, value & 0x7f, (value >> 7) & 0x7f]`. -/
def pwm_write_command (pin value : Nat) : List Nat :=
  [ANALOG_MESSAGE + pin, value &&& 0x7f, (value >>> 7) &&& 0x7f]

/-- Function `_analog_message` value reassembly:
`value = (data[MSB] << 7) + data[LSB]`. -/
def analog_message_value (lsb msb : Nat) : Nat :=
  (msb <<< 7) + lsb

/-! ## SPI verbs (spi_read / spi_write / spi_transfer) and _spi_reply -/

/-- One entry of `self.spi_requests`:
`{'callback': callback, 'skip_read': bool}`.  The callback is an opaque
identifier. -/
structure SpiEntry where
  callback : Nat
  skip_read : Bool
deriving DecidableEq, Repr

/-- The SPI-related attributes of a PymataExpress instance.
`__init__` assigns `self.spi_requests = {}` (line 174) and
`self.spi_request_id = 0` (line 178).  The attribute name
`spi_read_requests` appears in the class only as a read in `_spi_reply`
(line 2185) and is never assigned anywhere, so the field modelling that
attribute records whether the attribute exists on the instance (`none` =
absent, so reading it raises AttributeError). -/
structure SpiState where
  spi_requests : List (Nat × SpiEntry)
  spi_request_id : Nat
  spi_read_requests : Option (List (Nat × SpiEntry))
deriving DecidableEq, Repr

/-- The state produced by `__init__` for the SPI attributes. -/
def initSpiState : SpiState :=
  { spi_requests := [], spi_request_id := 0, spi_read_requests := none }

/-- Observable outcome of one SPI verb call: the final state, the byte
sequences written to the transport (one entry per `_send_sysex` call, in
order), and whether the verb's `else:` clause invoked the caller's
callback with the failure value (`[]` for reads/transfers, `False` for
writes). -/
structure SpiVerbResult where
  state : SpiState
  sent : List (List Nat)
  failure_cb : Bool
deriving DecidableEq, Repr

/-- The `while (next_request_id + 1) % 128 != self.spi_request_id: ...
else: ...` loop shared verbatim by `spi_read`, `spi_write` and
`spi_transfer`.  The loop body either retries with `next_request_id + 1`
when the id is in use, or stores the entry, sends the payload and
advances `self.spi_request_id`; the `while`-`else` clause (reached when
the loop condition turns false, there being no `break` in the loop)
invokes the caller's callback with the failure value.  `fuel` bounds the
number of condition evaluations; `none` means fuel ran out (the loop
performs at most 128 retries, so fuel 256 always suffices). -/
def spiVerbLoop (entry : SpiEntry) (payload : Nat → List Nat) :
    Nat → SpiState → Nat → Option SpiVerbResult
  | 0, _, _ => none
  | fuel + 1, st, next =>
    if (next + 1) % 128 = st.spi_request_id then
      some { state := st, sent := [], failure_cb := true }
    else if dictContains st.spi_requests next then
      spiVerbLoop entry payload fuel st (next + 1)
    else
      let st1 : SpiState :=
        { st with spi_requests := dictSet st.spi_requests next entry }
      let msg := sendSysexBytes SPI_DATA (payload next)
      let st2 : SpiState := { st1 with spi_request_id := (next + 1) % 128 }
      match spiVerbLoop entry payload fuel st2 next with
      | none => none
      | some r => some { r with sent := msg :: r.sent }

/-- Verb `spi_read(device_id, device_channel, deselect_cs_pin, num_words,
data_callback)`.  `deselect_cs_pin` is the integer value of the Python
bool placed in the byte list. -/
def spi_read (st : SpiState) (device_id device_channel deselect_cs_pin num_words : Nat)
    (data_callback : Nat) : Option SpiVerbResult :=
  let device_id_channel := device_id <<< 3 ||| device_channel
  spiVerbLoop { callback := data_callback, skip_read := false }
    (fun next => [SPI_READ, device_id_channel, next, deselect_cs_pin, num_words])
    256 st st.spi_request_id

/-- Verb `spi_write(device_id, device_channel, deselect_cs_pin, data,
write_callback)`. -/
def spi_write (st : SpiState) (device_id device_channel deselect_cs_pin : Nat)
    (data : List Nat) (write_callback : Nat) : Option SpiVerbResult :=
  let device_id_channel := device_id <<< 3 ||| device_channel
  let num_words := data.length
  spiVerbLoop { callback := write_callback, skip_read := true }
    (fun next =>
      [SPI_WRITE, device_id_channel, next, deselect_cs_pin, num_words] ++ data)
    256 st st.spi_request_id

/-- Verb `spi_transfer(device_id, device_channel, deselect_cs_pin, data,
data_callback)`. -/
def spi_transfer (st : SpiState) (device_id device_channel deselect_cs_pin : Nat)
    (data : List Nat) (data_callback : Nat) : Option SpiVerbResult :=
  let device_id_channel := device_id <<< 3 ||| device_channel
  let num_words := data.length
  spiVerbLoop { callback := data_callback, skip_read := false }
    (fun next =>
      [SPI_TRANSFER, device_id_channel, next, deselect_cs_pin, num_words] ++ data)
    256 st st.spi_request_id

/-- What `_spi_reply` appends to `reply_data` before the timestamp:
`True` for a skip_read (write) entry, or the combined data list (left
empty by the source: `combined_data = []  # TODO`). -/
inductive SpiReplyPayload where
  | writeResult (b : Bool)
  | readData (bytes : List Nat)
deriving DecidableEq, Repr

/-- A recorded invocation of an SPI request's callback. -/
structure SpiCbInvocation where
  callback : Nat
  payload : SpiReplyPayload
  time : Rat
deriving DecidableEq, Repr

/-- Handler `_spi_reply(data)`: strip the SysEx framing (`data[1:-1]`), take
`request_id = data[0]`, look the id up via
`self.spi_read_requests.get(request_id)` (an attribute the class never
assigns), and on a hit delete the entry from `self.spi_requests` and
invoke the callback with `True` (skip_read) or the combined data plus a
timestamp. -/
def spi_reply (st : SpiState) (data : List Nat) (now : Rat) :
    Except PyErr (SpiState × List SpiCbInvocation) :=
  let stripped := (data.drop 1).dropLast
  match stripped.head? with
  | none => .error .indexError
  | some request_id =>
    match st.spi_read_requests with
    | none => .error .attributeError
    | some read_requests =>
      match dictGet read_requests request_id with
      | none => .ok (st, [])
      | some request_entry =>
        if dictContains st.spi_requests request_id then
          let st1 : SpiState :=
            { st with spi_requests := dictDel st.spi_requests request_id }
          let payload := if request_entry.skip_read then
              SpiReplyPayload.writeResult true
            else
              SpiReplyPayload.readData []
          .ok (st1, [{ callback := request_entry.callback,
                       payload := payload, time := now }])
        else
          .error .keyError

/-! ## Sonar: set_pin_mode_sonar (C7) and _sonar_data (C4) -/

/-- One entry of `self.active_sonar_map`:
`[callback, current_data_returned, time_stamp]`.  `hasCb` records whether
the callback slot is not None (a Python function is always truthy, so
the `is not None` test on line 2146 and the truthiness test on line 2154
agree with this Bool). -/
structure SonarEntry where
  hasCb : Bool
  last_value : Nat
  last_time : Rat
deriving DecidableEq, Repr

/-- A recorded sonar callback invocation
`[PrivateConstants.SONAR, pin_number, val, time_stamp]`. -/
structure SonarCbInvocation where
  pin : Nat
  value : Nat
  time : Rat
deriving DecidableEq, Repr

/-- Handler `_sonar_data(data)` (lines 2128-2167): strip the SysEx framing,
`pin_number = data[0]`, `val = (data[MSB] << 7) + data[LSB]`; index the
active sonar map (KeyError when the pin was never configured).  With a
callback present and a changed value, store the new value and timestamp
and — because of the `if sonar_pin_entry[1]:` guard on the freshly
assigned value — invoke the callback only when the new value is nonzero.
With no callback, just record the new value. -/
def sonar_data_core (m : List (Nat × SonarEntry)) (pin_number lsb msb : Nat)
    (now : Rat) :
    Except PyErr (List (Nat × SonarEntry) × List SonarCbInvocation) :=
  let val := (msb <<< 7) + lsb
  match dictGet m pin_number with
  | none => .error .keyError
  | some entry =>
    if entry.hasCb then
      if entry.last_value ≠ val then
        let entry1 : SonarEntry :=
          { entry with last_value := val, last_time := now }
        let m1 := dictSet m pin_number entry1
        let cbs := if entry.hasCb then
            if val ≠ 0 then
              [{ pin := pin_number, value := val, time := now }]
            else []
          else []
        .ok (m1, cbs)
      else
        .ok (m, [])
    else
      .ok (dictSet m pin_number { entry with last_value := val }, [])

/-- Handler `_sonar_data` entry point: strip framing and split off
`data[0]`, `data[LSB]`, `data[MSB]`. -/
def sonar_data (m : List (Nat × SonarEntry)) (data : List Nat) (now : Rat) :
    Except PyErr (List (Nat × SonarEntry) × List SonarCbInvocation) :=
  match (data.drop 1).dropLast with
  | pin_number :: lsb :: msb :: _ => sonar_data_core m pin_number lsb msb now
  | _ => .error .indexError

/-- Verb `set_pin_mode_sonar(trigger_pin, echo_pin, callback, timeout)`
(lines 1207-1258).  Returns the new sonar map, the byte sequences
written (two SET_PIN_MODE commands then the SONAR_CONFIG SysEx — sent
unconditionally), and whether the too-many-devices console message was
printed.  A duplicate trigger pin returns immediately.  The
`_set_pin_mode(pin, SONAR, INPUT)` calls pass INPUT = 0 as the
positional callback argument, which is falsy, so no callback is stored,
and SONAR is neither INPUT nor PULLUP so no report-enable command
follows. -/
def set_pin_mode_sonar (m : List (Nat × SonarEntry)) (trigger_pin echo_pin : Nat)
    (hasCb : Bool) (tmo : Nat) :
    List (Nat × SonarEntry) × List (List Nat) × Bool :=
  if dictContains m trigger_pin then (m, [], false)
  else
    let timeout_lsb := tmo &&& 0x7f
    let timeout_msb := (tmo >>> 7) &&& 0x7f
    let data := [trigger_pin, echo_pin, timeout_lsb, timeout_msb]
    let sent1 := [SET_PIN_MODE, trigger_pin, SONAR]
    let sent2 := [SET_PIN_MODE, echo_pin, SONAR]
    let m1 := if m.length > 6 then m
      else dictSet m trigger_pin { hasCb := hasCb, last_value := 0, last_time := 0 }
    (m1, [sent1, sent2, sendSysexBytes SONAR_CONFIG data],
      decide (m.length > 6))

/-! ## DHT response handler (C5) -/

/-- The DHT-relevant fields of the `self.digital_pins[pin]` record:
`current_value` holds the stored [humidity, temperature] pair,
`event_time` the last report time, `differential` the per-pin change
threshold, `hasCb` whether a callback is registered. -/
structure DhtPin where
  current_value : Rat × Rat
  event_time : Rat
  differential : Rat
  hasCb : Bool
deriving DecidableEq, Repr

/-- A recorded DHT callback invocation: the reply list
`[DHT, pin, dht_type, validation, humidity, temperature, time_stamp]`. -/
structure DhtCbInvocation where
  pin : Nat
  dht_type : Nat
  validation : Nat
  humidity : Rat
  temperature : Rat
  time : Rat
deriving DecidableEq, Repr

/-- Humidity as computed by `_dht_read_response`:
`float(data[5] + data[6] / 100)`, negated when `data[3]` is truthy, and
left at 0 when the validation byte `data[2]` is nonzero. -/
def dht_humidity (valid hum_neg hum_int hum_frac : Nat) : Rat :=
  if valid = 0 then
    (if hum_neg ≠ 0 then -1 else 1) * ((hum_int : Rat) + (hum_frac : Rat) / 100)
  else 0

/-- Temperature as computed by `_dht_read_response`:
`float(data[7] + data[8] / 100)`, negated when `data[4]` is truthy, and
left at 0 when the validation byte `data[2]` is nonzero. -/
def dht_temperature (valid temp_neg temp_int temp_frac : Nat) : Rat :=
  if valid = 0 then
    (if temp_neg ≠ 0 then -1 else 1) * ((temp_int : Rat) + (temp_frac : Rat) / 100)
  else 0

/-- Handler `_dht_read_response` (lines 1911-1966) on the stripped
payload `[pin, dht_type, valid, hum_neg, temp_neg, hum_int, hum_frac,
temp_int, temp_frac]`.  `event_time` and `current_value` are assigned
unconditionally; with a callback present, the humidity branch
(`if last_value[0] != humidity:`) ends in `return` without ever
examining the temperature, and the temperature branch is reached only
when the humidity is exactly unchanged. -/
def dht_read_response_core (p : DhtPin) (pin dht_type valid hum_neg temp_neg
    hum_int hum_frac temp_int temp_frac : Nat) (now : Rat) :
    DhtPin × List DhtCbInvocation :=
  let humidity := dht_humidity valid hum_neg hum_int hum_frac
  let temperature := dht_temperature valid temp_neg temp_int temp_frac
  let last_value := p.current_value
  let p1 : DhtPin :=
    { p with event_time := now, current_value := (humidity, temperature) }
  let inv : DhtCbInvocation :=
    { pin := pin, dht_type := dht_type, validation := valid,
      humidity := humidity, temperature := temperature, time := now }
  let cbs :=
    if p.hasCb then
      if last_value.1 ≠ humidity then
        if |humidity - last_value.1| ≥ p.differential then [inv] else []
      else if last_value.2 ≠ temperature then
        if |temperature - last_value.2| ≥ p.differential then [inv] else []
      else []
    else []
  (p1, cbs)

/-- Handler `_dht_read_response` entry point: strip the SysEx framing
and destructure the nine payload bytes. -/
def dht_read_response (p : DhtPin) (data : List Nat) (now : Rat) :
    Except PyErr (DhtPin × List DhtCbInvocation) :=
  match (data.drop 1).dropLast with
  | pin :: dht_type :: valid :: hum_neg :: temp_neg :: hum_int :: hum_frac ::
      temp_int :: temp_frac :: _ =>
    .ok (dht_read_response_core p pin dht_type valid hum_neg temp_neg hum_int
      hum_frac temp_int temp_frac now)
  | _ => .error .indexError

/-! ## I2C read registration (C8) -/

/-- One entry of `self.i2c_map`: `{'value': ..., 'callback': ...}`; the
callback is an opaque identifier or None. -/
structure I2cEntry where
  value : Option (List Nat)
  callback : Option Nat
deriving DecidableEq, Repr

/-- Method `_i2c_read_request(address, register, number_of_bytes,
read_type, callback)` (lines 832-875): the map entry (with the callback)
is created only when the address is not yet present
(`if address not in self.i2c_map`), then the I2C_REQUEST SysEx is sent.
Returns the new map and the bytes written. -/
def i2c_read_request (m : List (Nat × I2cEntry)) (address : Nat)
    (register : Option Nat) (number_of_bytes read_type : Nat)
    (callback : Option Nat) : List (Nat × I2cEntry) × List Nat :=
  let m1 := if dictContains m address then m
    else dictSet m address { value := none, callback := callback }
  let data := match register with
    | some reg => [address, read_type, reg &&& 0x7f, (reg >>> 7) &&& 0x7f,
        number_of_bytes &&& 0x7f, (number_of_bytes >>> 7) &&& 0x7f]
    | none => [address, read_type, number_of_bytes &&& 0x7f,
        (number_of_bytes >>> 7) &&& 0x7f]
  (m1, sendSysexBytes I2C_REQUEST data)

/-- Verb `i2c_read`: `_i2c_read_request` with `I2C_READ`. -/
def i2c_read (m : List (Nat × I2cEntry)) (address : Nat) (register : Option Nat)
    (number_of_bytes : Nat) (callback : Option Nat) :
    List (Nat × I2cEntry) × List Nat :=
  i2c_read_request m address register number_of_bytes I2C_READ callback

/-- Verb `i2c_read_continuous`: `_i2c_read_request` with
`I2C_READ_CONTINUOUSLY`. -/
def i2c_read_continuous (m : List (Nat × I2cEntry)) (address : Nat)
    (register : Option Nat) (number_of_bytes : Nat) (callback : Option Nat) :
    List (Nat × I2cEntry) × List Nat :=
  i2c_read_request m address register number_of_bytes I2C_READ_CONTINUOUSLY callback

/-- Verb `i2c_read_restart_transmission`: `_i2c_read_request` with
`I2C_READ | I2C_END_TX_MASK`. -/
def i2c_read_restart_transmission (m : List (Nat × I2cEntry)) (address : Nat)
    (register : Option Nat) (number_of_bytes : Nat) (callback : Option Nat) :
    List (Nat × I2cEntry) × List Nat :=
  i2c_read_request m address register number_of_bytes
    (I2C_READ ||| I2C_END_TX_MASK) callback

/-! ## shutdown (C6) -/

/-- The attributes of a PymataExpress instance involved in `shutdown`
(pymata_express.py lines 1403-1428) over a serial transport.
`write_fails` models an underlying pyserial write that raises
SerialException (e.g. an unplugged adapter); a write on a closed port
raises it too (PortNotOpenError is a SerialException).  That exception
never reaches the caller of `write`: `PymataExpressSerial.write`
(pymata_express_serial.py lines 68-105) catches it internally and
returns None.  `dispatcher_task` records whether the report-dispatcher
task (`self.the_task`) is alive, `keep_alive_task` whether a keep-alive
task object is held; `loop_stopped` / `loop_closed` mirror the
event-loop calls (the serial wrapper is constructed with
`close_loop_on_error=self.close_loop_on_shutdown` and
`express_instance=self`, lines 364-366 and 420-422).  Real-time
consequences of stopping the event loop mid-coroutine are outside this
sequential state-transition model. -/
structure ShutdownState where
  shutdown_flag : Bool
  analog_count : Nat
  digital_count : Nat
  first_analog_pin : Nat
  keep_alive_task : Bool
  dispatcher_task : Bool
  close_loop_on_shutdown : Bool
  loop_stopped : Bool
  loop_closed : Bool
  serial_closed : Bool
  write_fails : Bool
deriving DecidableEq, Repr

/-- The `except serial.SerialException:` branch of
`PymataExpressSerial.write` (pymata_express_serial.py lines 82-95):
close the port, cancel the future, stop the event loop when
`close_loop_on_error`, cancel the dispatcher task if one exists, sleep,
close the loop when `close_loop_on_error`.  The method then falls
through with `result` still None and returns None — nothing is
re-raised. -/
def serial_write_fail_branch (st : ShutdownState) : ShutdownState :=
  let st1 : ShutdownState := { st with serial_closed := true }
  let st2 : ShutdownState :=
    if st1.close_loop_on_shutdown then { st1 with loop_stopped := true } else st1
  let st3 : ShutdownState := { st2 with dispatcher_task := false }
  if st3.close_loop_on_shutdown then { st3 with loop_closed := true } else st3

/-- Method `PymataExpressSerial.write` for one character: the pyserial
write raises SerialException when the port is closed or failing; the
wrapper catches it (see serial_write_fail_branch) and returns None;
otherwise the byte count is returned. -/
def serial_write (st : ShutdownState) : ShutdownState × Option Nat :=
  if st.serial_closed || st.write_fails then (serial_write_fail_branch st, none)
  else (st, some 1)

/-- Method `_send_command` (lines 2208-2235) over the serial transport:
each character of the command is passed to `serial_port.write` in turn
(the `for data in send_message:` loop keeps going after a swallowed
write error); the `except AttributeError: raise RuntimeError` guard
fires only when `serial_port` is None, never for the connected serial
client modelled here.  Returns the final state and the bytes that
pyserial accepted. -/
def send_command (st : ShutdownState) : List Nat → ShutdownState × List Nat
  | [] => (st, [])
  | b :: rest =>
    match serial_write st with
    | (st1, some _) =>
      let r := send_command st1 rest
      (r.1, b :: r.2)
    | (st1, none) =>
      send_command st1 rest

/-- Verb `disable_analog_reporting(pin)` (lines 559-567): offsets the
pin by `first_analog_pin` and calls `set_pin_mode_digital_input`, i.e.
`_set_pin_mode(pin, INPUT, None)`: SET_PIN_MODE(pin, INPUT) is sent
and, INPUT being the pin state, REPORT_DIGITAL(port, enable) follows
(the callback argument is None, so no pin record is touched). -/
def disable_analog_reporting (st : ShutdownState) (pin : Nat) :
    ShutdownState × List (List Nat) :=
  let p := pin + st.first_analog_pin
  let r1 := send_command st [SET_PIN_MODE, p, INPUT]
  let r2 := send_command r1.1 [REPORT_DIGITAL + p / 8, REPORTING_ENABLE]
  (r2.1, [r1.2, r2.2])

/-- Verb `disable_digital_reporting(pin)` (lines 569-580): sends
REPORT_DIGITAL(port, disable) for the pin port. -/
def disable_digital_reporting (st : ShutdownState) (pin : Nat) :
    ShutdownState × List Nat :=
  send_command st [REPORT_DIGITAL + pin / 8, REPORTING_DISABLE]

/-- The `for pin in range(len(self.analog_pins)):
await self.disable_analog_reporting(pin)` loop of shutdown, processing
pins 0 .. count-1 in order and concatenating everything written. -/
def shutdown_analog_loop (st : ShutdownState) : Nat → ShutdownState × List (List Nat)
  | 0 => (st, [])
  | n + 1 =>
    let r := shutdown_analog_loop st n
    let d := disable_analog_reporting r.1 n
    (d.1, r.2 ++ d.2)

/-- The `for pin in range(len(self.digital_pins)):
await self.disable_digital_reporting(pin)` loop of shutdown. -/
def shutdown_digital_loop (st : ShutdownState) : Nat → ShutdownState × List (List Nat)
  | 0 => (st, [])
  | n + 1 =>
    let r := shutdown_digital_loop st n
    let d := disable_digital_reporting r.1 n
    (d.1, r.2 ++ [d.2])

/-- Method `PymataExpressSerial.reset_input_buffer` (lines 198-202):
calls pyserial directly with no handler of its own, and pyserial raises
SerialException (PortNotOpenError) when the port is closed. -/
def reset_input_buffer (st : ShutdownState) : Except PyErr Unit :=
  if st.serial_closed then .error .serialException else .ok ()

/-- The `try: ... except (RuntimeError, SerialException): pass` block of
shutdown (lines 1419-1428): optionally stop the loop, send SYSTEM_RESET
(whose write errors are swallowed inside the serial wrapper), reset the
input buffer — the one step here that can raise; its SerialException is
caught by the except clause, which skips the remaining close steps —
then close the serial port and optionally close the loop.  Returns the
state after the block and the SYSTEM_RESET bytes that pyserial
accepted. -/
def shutdown_try_block (st : ShutdownState) : ShutdownState × List Nat :=
  let st1 : ShutdownState :=
    if st.close_loop_on_shutdown then { st with loop_stopped := true } else st
  let r := send_command st1 [SYSTEM_RESET]
  match reset_input_buffer r.1 with
  | .error _ => (r.1, r.2)
  | .ok _ =>
    let st2 : ShutdownState := { r.1 with serial_closed := true }
    let st3 : ShutdownState :=
      if st2.close_loop_on_shutdown then { st2 with loop_closed := true }
      else st2
    (st3, r.2)

/-- Verb `shutdown` (lines 1403-1428): set the shutdown flag, run the
two disable-reporting loops — they sit outside the try block, but over
the serial transport their writes cannot raise, because the wrapper
swallows SerialException — then the try block.  No exception propagates
to the caller, and the keep-alive task is never cancelled.  Returns the
final state and the byte sequences that pyserial accepted. -/
def shutdown (st : ShutdownState) : ShutdownState × List (List Nat) :=
  let st0 : ShutdownState := { st with shutdown_flag := true }
  let ra := shutdown_analog_loop st0 st0.analog_count
  let rd := shutdown_digital_loop ra.1 ra.1.digital_count
  let rt := shutdown_try_block rd.1
  (rt.1, ra.2 ++ rd.2 ++ [rt.2])

/-! ## Digital message handler and digital_read (C10) -/

/-- The fields of a digital `PinData` record relevant to
`_digital_message` and `digital_read`. -/
structure PinData where
  current_value : Nat
  event_time : Rat
  pull_up : Bool
  hasCb : Bool
deriving DecidableEq, Repr

/-- A recorded digital callback invocation
`[pin_type, pin, value, time_stamp]`. -/
structure DigitalCbInvocation where
  pin_type : Nat
  pin : Nat
  value : Nat
  time : Rat
deriving DecidableEq, Repr

/-- The `for pin in range(pin, min(pin + 8, len(self.digital_pins)))`
loop of `_digital_message`: for every visited pin, `value` is the low
bit of `port_data` (which is right-shifted each iteration);
`current_value` and `event_time` are overwritten unconditionally; the
callback fires only when the stored value differed and a callback is
registered. -/
def digital_message_loop (now : Rat) (stop : Nat) (pins : List PinData)
    (port_data pin : Nat) : List PinData × List DigitalCbInvocation :=
  if pin < stop then
    match pins[pin]? with
    | none => (pins, [])
    | some pd =>
      let value := port_data &&& 1
      let pd1 : PinData := { pd with current_value := value, event_time := now }
      let pins1 := pins.set pin pd1
      let pin_type := if pd.pull_up then PULLUP else INPUT
      let msg : DigitalCbInvocation :=
        { pin_type := pin_type, pin := pin, value := value, time := now }
      let r := digital_message_loop now stop pins1 (port_data >>> 1) (pin + 1)
      (r.1, (if pd.current_value ≠ value ∧ pd.hasCb then [msg] else []) ++ r.2)
  else (pins, [])
termination_by stop - pin
decreasing_by simp_wf; omega

/-- Handler `_digital_message(data)` (lines 1968-2004) with
`data = [port, lsb, msb]` as delivered by the dispatcher:
`port_data = (data[MSB] << 7) + data[LSB]`, then the per-port loop. -/
def digital_message (pins : List PinData) (port lsb msb : Nat) (now : Rat) :
    List PinData × List DigitalCbInvocation :=
  digital_message_loop now (min (port * 8 + 8) pins.length) pins
    ((msb <<< 7) + lsb) (port * 8)

/-- Verb `digital_read(pin)` (lines 492-501): returns the pin record's
`(current_value, event_time)`. -/
def digital_read (pins : List PinData) (pin : Nat) : Option (Nat × Rat) :=
  match pins[pin]? with
  | none => none
  | some pd => some (pd.current_value, pd.event_time)

/-! ## One-shot query polling loops (C3)

Each query verb sends its request and then polls its `query_reply_data`
slot.  The loop is modelled iteration by iteration: `slot n` is the slot
contents observed at iteration n (`none` / the empty string is the
unconsumed sentinel), `times n` the value `time.time()` returns there.
The loop value after n iterations is `none` while the loop is still
running, `some r` once the verb has returned `r`. -/

/-- The polling loop of `get_analog_map` (lines 626-631): while the slot
is None, return None as soon as `time.time() - current_time > 4`,
otherwise keep sleeping and polling.  Result `some none` models the
verb returning None on timeout, `some (some v)` returning the report. -/
def get_analog_map_loop (t0 : Rat) (times : Nat → Rat)
    (slot : Nat → Option (List Nat)) : Nat → Option (Option (List Nat))
  | 0 => none
  | n + 1 =>
    match get_analog_map_loop t0 times slot n with
    | some r => some r
    | none =>
      match slot n with
      | some v => some (some v)
      | none => if times n - t0 > 4 then some none else none

/-- The polling loop of `get_firmware_version` (lines 658-663): the
sentinel is the empty string; same 4-second timeout as the analog map
query. -/
def get_firmware_version_loop (t0 : Rat) (times : Nat → Rat)
    (slot : Nat → String) : Nat → Option (Option String)
  | 0 => none
  | n + 1 =>
    match get_firmware_version_loop t0 times slot n with
    | some r => some r
    | none =>
      if slot n = "" then
        if times n - t0 > 4 then some none else none
      else some (some (slot n))

/-- The polling loop of `get_capability_report` (lines 644-646): while
the slot is None, sleep and poll again — the body contains no timeout
check at all. -/
def get_capability_report_loop (slot : Nat → Option (List Nat)) :
    Nat → Option (List Nat)
  | 0 => none
  | n + 1 =>
    match get_capability_report_loop slot n with
    | some r => some r
    | none => slot n

/-- The polling loop of `get_protocol_version` (lines 675-677): empty
string sentinel, no timeout check. -/
def get_protocol_version_loop (slot : Nat → String) : Nat → Option String
  | 0 => none
  | n + 1 =>
    match get_protocol_version_loop slot n with
    | some r => some r
    | none => if slot n = "" then none else some (slot n)

/-- The polling loop of `get_pin_state` (lines 712-714): None sentinel,
no timeout check. -/
def get_pin_state_loop (slot : Nat → Option (List Nat)) :
    Nat → Option (List Nat)
  | 0 => none
  | n + 1 =>
    match get_pin_state_loop slot n with
    | some r => some r
    | none => slot n

end PymataExpress

namespace PymataExpress

/-- On a forever-empty slot, the capability-report loop never returns. -/
theorem capability_loop_empty_none (n : Nat) :
    get_capability_report_loop (fun _ => none) n = none := by
  induction n with
  | zero => rfl
  | succ n ih => simp [get_capability_report_loop, ih]

/-- On a forever-empty slot, the protocol-version loop never returns. -/
theorem protocol_loop_empty_none (n : Nat) :
    get_protocol_version_loop (fun _ => "") n = none := by
  induction n with
  | zero => rfl
  | succ n ih => simp [get_protocol_version_loop, ih]

/-- On a forever-empty slot, the pin-state loop never returns. -/
theorem pin_state_loop_empty_none (n : Nat) :
    get_pin_state_loop (fun _ => none) n = none := by
  induction n with
  | zero => rfl
  | succ n ih => simp [get_pin_state_loop, ih]

/-- On a forever-empty slot, the analog-map loop is still running or has
returned None. -/
theorem analog_map_loop_empty_cases (t0 : Rat) (times : Nat → Rat) (n : Nat) :
    get_analog_map_loop t0 times (fun _ => none) n = none ∨
      get_analog_map_loop t0 times (fun _ => none) n = some none := by
  induction n with
  | zero => exact Or.inl rfl
  | succ n ih =>
    rcases ih with h | h
    · simp only [get_analog_map_loop, h]
      by_cases ht : times n - t0 > 4 <;> simp [ht]
    · simp only [get_analog_map_loop, h]
      exact Or.inr trivial

/-- On a forever-empty slot, the firmware-version loop is still running
or has returned None. -/
theorem firmware_loop_empty_cases (t0 : Rat) (times : Nat → Rat) (n : Nat) :
    get_firmware_version_loop t0 times (fun _ => "") n = none ∨
      get_firmware_version_loop t0 times (fun _ => "") n = some none := by
  induction n with
  | zero => exact Or.inl rfl
  | succ n ih =>
    rcases ih with h | h
    · simp only [get_firmware_version_loop, h]
      by_cases ht : times n - t0 > 4 <;> simp [ht]
    · simp only [get_firmware_version_loop, h]
      exact Or.inr trivial

/-- C3 counterexample: three of the five query verbs have no timeout.
With the slot empty forever, the polling loops of get_capability_report,
get_protocol_version and get_pin_state never return — there is no
4-second check in their bodies — refuting the claim that every one-shot
query verb's polling loop returns None after 4 seconds. -/
theorem c3_untimed_query_loops_poll_forever :
    (∀ n, get_capability_report_loop (fun _ => none) n = none) ∧
    (∀ n, get_protocol_version_loop (fun _ => "") n = none) ∧
    (∀ n, get_pin_state_loop (fun _ => none) n = none) :=
  ⟨capability_loop_empty_none, protocol_loop_empty_none,
    pin_state_loop_empty_none⟩

/-- C3 amended: only get_analog_map and get_firmware_version poll with
the 4-second timeout — on a forever-empty slot they have returned None
by the iteration after time exceeds t0 + 4 — while
get_capability_report, get_protocol_version and get_pin_state poll
indefinitely. -/
theorem c3_query_timeout_only_analog_map_and_firmware (t0 : Rat)
    (times : Nat → Rat) (n : Nat) (h : times n - t0 > 4) :
    get_analog_map_loop t0 times (fun _ => none) (n + 1) = some none ∧
    get_firmware_version_loop t0 times (fun _ => "") (n + 1) = some none ∧
    (∀ m, get_capability_report_loop (fun _ => none) m = none) ∧
    (∀ m, get_protocol_version_loop (fun _ => "") m = none) ∧
    (∀ m, get_pin_state_loop (fun _ => none) m = none) := by
  refine ⟨?_, ?_, capability_loop_empty_none, protocol_loop_empty_none,
    pin_state_loop_empty_none⟩
  · rcases analog_map_loop_empty_cases t0 times n with hc | hc <;>
      simp [get_analog_map_loop, hc, h]
  · rcases firmware_loop_empty_cases t0 times n with hc | hc <;>
      simp [get_firmware_version_loop, hc, h]

/-- Witness for c3_query_timeout_only_analog_map_and_firmware with
t0 = 0 and every time reading equal to 5 seconds. -/
theorem c3_query_timeout_witness :
    ((fun _ : Nat => (5 : Rat)) 0 - 0 > 4) ∧
    (get_analog_map_loop 0 (fun _ => 5) (fun _ => none) 1 = some none ∧
     get_firmware_version_loop 0 (fun _ => 5) (fun _ => "") 1 = some none ∧
     (∀ m, get_capability_report_loop (fun _ => none) m = none) ∧
     (∀ m, get_protocol_version_loop (fun _ => "") m = none) ∧
     (∀ m, get_pin_state_loop (fun _ => none) m = none)) :=
  ⟨by norm_num,
    c3_query_timeout_only_analog_map_and_firmware 0 (fun _ => 5) 0 (by norm_num)⟩

/-- Inserting a fresh key grows an association list by at most one
binding. -/
theorem dictSet_length_le {β : Type} (m : List (Nat × β)) (k : Nat) (v : β) :
    (dictSet m k v).length ≤ m.length + 1 := by
  induction m with
  | nil => simp [dictSet]
  | cons p rest ih =>
    obtain ⟨k0, v0⟩ := p
    by_cases h : k0 = k
    · simp [dictSet, h]
    · simp only [dictSet, if_neg h, List.length_cons]
      omega

/-- C4 counterexample: a configured sonar pin with a callback and stored
value 30 receives a reply carrying value 0.  The value changed, so the
claim demands a callback invocation, but `_sonar_data` guards the await
with `if sonar_pin_entry[1]:` (the freshly stored value), so a change to
zero updates the map yet fires no callback. -/
theorem c4_sonar_change_to_zero_fires_no_callback :
    sonar_data [(12, { hasCb := true, last_value := 30, last_time := 0 })]
        [SONAR_DATA, 12, 0, 0, END_SYSEX] 5 =
      .ok ([(12, { hasCb := true, last_value := 0, last_time := 5 })], []) := by
  rfl

/-- C4 amended: for a configured trigger pin whose entry has a callback,
the sonar handler updates the stored value and timestamp exactly when
the decoded value differs from the stored one, and invokes the callback
with [SONAR, pin, value, now] exactly when the value differs AND the new
value is nonzero; an unchanged value (in particular the second and third
of three identical replies) fires nothing. -/
theorem c4_sonar_callback_iff_value_changed_and_nonzero
    (m : List (Nat × SonarEntry)) (pin lsb msb : Nat) (rest : List Nat)
    (now : Rat) (entry : SonarEntry)
    (hm : dictGet m pin = some entry) (hcb : entry.hasCb = true) :
    sonar_data m ((SONAR_DATA :: pin :: lsb :: msb :: rest) ++ [END_SYSEX]) now =
      .ok (if entry.last_value ≠ (msb <<< 7) + lsb then
             dictSet m pin
               { entry with last_value := (msb <<< 7) + lsb, last_time := now }
           else m,
           if entry.last_value ≠ (msb <<< 7) + lsb ∧ (msb <<< 7) + lsb ≠ 0 then
             [{ pin := pin, value := (msb <<< 7) + lsb, time := now }]
           else []) := by
  have hcore : sonar_data m ((SONAR_DATA :: pin :: lsb :: msb :: rest) ++ [END_SYSEX]) now
      = sonar_data_core m pin lsb msb now := by
    unfold sonar_data
    have hd : (((SONAR_DATA :: pin :: lsb :: msb :: rest) ++ [END_SYSEX]).drop 1).dropLast
        = pin :: lsb :: msb :: rest := by
      show ((pin :: lsb :: msb :: rest) ++ [END_SYSEX]).dropLast = _
      exact List.dropLast_concat
    rw [hd]
  rw [hcore]
  simp only [sonar_data_core, hm, hcb]
  by_cases hne : entry.last_value = (msb <<< 7) + lsb
  · simp [hne]
  · by_cases hz : (msb <<< 7) + lsb = 0
    · rw [hz] at hne
      simp [hne, hz]
    · simp [hne, hz]

/-- Witness for c4_sonar_callback_iff_value_changed_and_nonzero: pin 12
with stored value 30 receives value 31; the callback fires once. -/
theorem c4_sonar_callback_iff_witness :
    dictGet [(12, ({ hasCb := true, last_value := 30, last_time := 0 } : SonarEntry))] 12
        = some { hasCb := true, last_value := 30, last_time := 0 } ∧
    ({ hasCb := true, last_value := 30, last_time := 0 } : SonarEntry).hasCb = true ∧
    sonar_data [(12, { hasCb := true, last_value := 30, last_time := 0 })]
        ((SONAR_DATA :: 12 :: 31 :: 0 :: []) ++ [END_SYSEX]) 5 =
      .ok (if ({ hasCb := true, last_value := 30, last_time := 0 } : SonarEntry).last_value
              ≠ (0 <<< 7) + 31 then
             dictSet [(12, { hasCb := true, last_value := 30, last_time := 0 })] 12
               { hasCb := true, last_value := (0 <<< 7) + 31, last_time := 5 }
           else [(12, { hasCb := true, last_value := 30, last_time := 0 })],
           if ({ hasCb := true, last_value := 30, last_time := 0 } : SonarEntry).last_value
               ≠ (0 <<< 7) + 31 ∧ (0 <<< 7) + 31 ≠ 0 then
             [{ pin := 12, value := (0 <<< 7) + 31, time := 5 }]
           else []) :=
  ⟨rfl, rfl,
    c4_sonar_callback_iff_value_changed_and_nonzero _ 12 31 0 [] 5 _ rfl rfl⟩

/-- C7 counterexample: with six sonar devices configured, a call for a
seventh distinct trigger pin still adds the entry (the capacity test is
`len > 6`), so the map reaches seven entries; the two SET_PIN_MODE
commands and the SONAR_CONFIG SysEx are sent and nothing is raised —
where the claim demands a synchronous InvalidArgument before any bytes
are written and no new entry. -/
theorem c7_seventh_sonar_device_is_added :
    set_pin_mode_sonar
        [(0, ⟨false, 0, 0⟩), (1, ⟨false, 0, 0⟩), (2, ⟨false, 0, 0⟩),
         (3, ⟨false, 0, 0⟩), (4, ⟨false, 0, 0⟩), (5, ⟨false, 0, 0⟩)]
        6 7 false 80000 =
      ([(0, ⟨false, 0, 0⟩), (1, ⟨false, 0, 0⟩), (2, ⟨false, 0, 0⟩),
        (3, ⟨false, 0, 0⟩), (4, ⟨false, 0, 0⟩), (5, ⟨false, 0, 0⟩),
        (6, ⟨false, 0, 0⟩)],
       [[SET_PIN_MODE, 6, SONAR], [SET_PIN_MODE, 7, SONAR],
        sendSysexBytes SONAR_CONFIG [6, 7, 80000 &&& 0x7f, (80000 >>> 7) &&& 0x7f]],
       false) := by
  decide

/-- C7 amended: for a fresh trigger pin, the sonar map is capped at
seven (not six) entries: with at most six entries the new entry is
added, with exactly seven the insertion is skipped and a console warning
is printed instead of raising; in every case the two SET_PIN_MODE
commands and the SONAR_CONFIG SysEx are written and no exception is
raised. -/
theorem c7_sonar_capacity_is_seven_with_console_warning
    (m : List (Nat × SonarEntry)) (trigger echo : Nat) (cb : Bool) (tmo : Nat)
    (h7 : m.length ≤ 7) (hnew : dictContains m trigger = false) :
    ((set_pin_mode_sonar m trigger echo cb tmo).1.length ≤ 7) ∧
    (m.length ≤ 6 →
      (set_pin_mode_sonar m trigger echo cb tmo).1 =
        dictSet m trigger { hasCb := cb, last_value := 0, last_time := 0 }) ∧
    (m.length = 7 →
      (set_pin_mode_sonar m trigger echo cb tmo).1 = m ∧
      (set_pin_mode_sonar m trigger echo cb tmo).2.2 = true) ∧
    (set_pin_mode_sonar m trigger echo cb tmo).2.1 =
      [[SET_PIN_MODE, trigger, SONAR], [SET_PIN_MODE, echo, SONAR],
       sendSysexBytes SONAR_CONFIG [trigger, echo, tmo &&& 0x7f, (tmo >>> 7) &&& 0x7f]] := by
  have hle := dictSet_length_le m trigger
      ({ hasCb := cb, last_value := 0, last_time := 0 } : SonarEntry)
  unfold set_pin_mode_sonar
  rw [hnew]
  simp only [Bool.false_eq_true, if_false]
  refine ⟨?_, fun hlen => ?_, fun hlen => ?_, trivial⟩
  · by_cases h6 : m.length > 6
    · simpa [h6] using h7
    · rw [if_neg h6]
      omega
  · rw [if_neg (by omega : ¬ m.length > 6)]
  · have h6 : m.length > 6 := by omega
    exact ⟨by rw [if_pos h6], by simp [h6]⟩

/-- Witness for c7_sonar_capacity_is_seven_with_console_warning: a
six-entry map receives a seventh device on trigger pin 9. -/
theorem c7_sonar_capacity_witness :
    ([(0, (⟨false, 0, 0⟩ : SonarEntry)), (1, ⟨false, 0, 0⟩), (2, ⟨false, 0, 0⟩),
      (3, ⟨false, 0, 0⟩), (4, ⟨false, 0, 0⟩), (5, ⟨false, 0, 0⟩)] : List _).length ≤ 7 ∧
    dictContains
      [(0, (⟨false, 0, 0⟩ : SonarEntry)), (1, ⟨false, 0, 0⟩), (2, ⟨false, 0, 0⟩),
       (3, ⟨false, 0, 0⟩), (4, ⟨false, 0, 0⟩), (5, ⟨false, 0, 0⟩)] 9 = false ∧
    (set_pin_mode_sonar
      [(0, ⟨false, 0, 0⟩), (1, ⟨false, 0, 0⟩), (2, ⟨false, 0, 0⟩),
       (3, ⟨false, 0, 0⟩), (4, ⟨false, 0, 0⟩), (5, ⟨false, 0, 0⟩)]
      9 10 true 100).1.length ≤ 7 :=
  ⟨by decide, by decide,
    (c7_sonar_capacity_is_seven_with_console_warning _ 9 10 true 100
      (by decide) (by decide)).1⟩

/-- Looking up a key right after setting it returns the new value. -/
theorem dictGet_dictSet_self {β : Type} (m : List (Nat × β)) (k : Nat) (v : β) :
    dictGet (dictSet m k v) k = some v := by
  induction m with
  | nil => simp [dictSet, dictGet]
  | cons p rest ih =>
    obtain ⟨k0, v0⟩ := p
    by_cases h : k0 = k
    · simp [dictSet, dictGet, h]
    · simp [dictSet, dictGet, h, ih]

/-- Membership holds for a key right after setting it. -/
theorem dictContains_dictSet_self {β : Type} (m : List (Nat × β)) (k : Nat) (v : β) :
    dictContains (dictSet m k v) k = true := by
  induction m with
  | nil => simp [dictSet, dictContains]
  | cons p rest ih =>
    obtain ⟨k0, v0⟩ := p
    by_cases h : k0 = k
    · simp [dictSet, dictContains, h]
    · have hh := ih
      simp [dictSet, dictContains, h] at hh ⊢
      exact hh

/-- C5 counterexample: a DHT pin with differential 1, stored reading
(50.5, 20) and a registered callback receives a valid frame reporting
humidity 50.6 (a change of 0.1, below the differential) and temperature
25 (a change of 5, at least the differential).  The claim demands a
callback invocation; the handler's humidity branch returns before the
temperature is ever compared, so no callback fires (the stored state is
still replaced). -/
theorem c5_dht_temperature_change_suppressed_by_humidity_noise :
    dht_read_response
        { current_value := (101/2, 20), event_time := 0, differential := 1,
          hasCb := true }
        [DHT_DATA, 4, 22, 0, 0, 0, 50, 60, 25, 0, END_SYSEX] 9 =
      .ok ({ current_value := (dht_humidity 0 0 50 60, dht_temperature 0 0 25 0),
             event_time := 9, differential := 1, hasCb := true }, []) ∧
    |dht_temperature 0 0 25 0 - 20| ≥ 1 ∧
    ¬ (|dht_humidity 0 0 50 60 - 101/2| ≥ 1) ∧
    dht_humidity 0 0 50 60 ≠ 101/2 := by
  refine ⟨?_, ?_, ?_, ?_⟩
  · show Except.ok (dht_read_response_core
        { current_value := (101/2, 20), event_time := 0, differential := 1,
          hasCb := true } 4 22 0 0 0 50 60 25 0 9) = _
    unfold dht_read_response_core
    norm_num [dht_humidity, dht_temperature, abs_of_pos]
  · norm_num [dht_temperature, abs_of_pos]
  · norm_num [dht_humidity, abs_of_pos]
  · norm_num [dht_humidity]

/-- C5 amended: for a DHT pin with a registered callback, the handler
always replaces event_time and current_value, and the callback fires iff
either the humidity changed and that change meets the differential, or
the humidity is exactly unchanged and the temperature changed by at
least the differential.  A sub-differential humidity change therefore
suppresses a simultaneous above-threshold temperature change. -/
theorem c5_dht_callback_iff_humidity_gate (p : DhtPin)
    (pin dht_type valid hum_neg temp_neg hum_int hum_frac temp_int temp_frac : Nat)
    (now : Rat) (hcb : p.hasCb = true) :
    ((dht_read_response_core p pin dht_type valid hum_neg temp_neg hum_int
        hum_frac temp_int temp_frac now).1 =
      { p with event_time := now,
               current_value := (dht_humidity valid hum_neg hum_int hum_frac,
                 dht_temperature valid temp_neg temp_int temp_frac) }) ∧
    ((dht_read_response_core p pin dht_type valid hum_neg temp_neg hum_int
        hum_frac temp_int temp_frac now).2 ≠ [] ↔
      (p.current_value.1 ≠ dht_humidity valid hum_neg hum_int hum_frac ∧
        |dht_humidity valid hum_neg hum_int hum_frac - p.current_value.1|
          ≥ p.differential) ∨
      (p.current_value.1 = dht_humidity valid hum_neg hum_int hum_frac ∧
        p.current_value.2 ≠ dht_temperature valid temp_neg temp_int temp_frac ∧
        |dht_temperature valid temp_neg temp_int temp_frac - p.current_value.2|
          ≥ p.differential)) := by
  unfold dht_read_response_core
  refine ⟨rfl, ?_⟩
  simp only [hcb, if_true]
  by_cases h1 : p.current_value.1 = dht_humidity valid hum_neg hum_int hum_frac
  · by_cases h2 :
        p.current_value.2 = dht_temperature valid temp_neg temp_int temp_frac
    · simp [h1, h2]
    · by_cases h3 : |dht_temperature valid temp_neg temp_int temp_frac
          - p.current_value.2| ≥ p.differential
      · simp [h1, h2, h3]
      · simp [h1, h2, h3]
  · by_cases h4 : |dht_humidity valid hum_neg hum_int hum_frac
        - p.current_value.1| ≥ p.differential
    · simp [h1, h4]
    · simp [h1, h4]

/-- Witness for c5_dht_callback_iff_humidity_gate at the concrete pin
record (50.5, 20), differential 1, with frame values
(valid, hum 50.60, temp 25.00) at time 9. -/
theorem c5_dht_callback_iff_witness :
    ({ current_value := (101/2, 20), event_time := 0, differential := 1,
       hasCb := true } : DhtPin).hasCb = true ∧
    (((dht_read_response_core
        { current_value := (101/2, 20), event_time := 0, differential := 1,
          hasCb := true } 4 22 0 0 0 50 60 25 0 9).1 =
      { ({ current_value := (101/2, 20), event_time := 0, differential := 1,
           hasCb := true } : DhtPin) with
        event_time := 9,
        current_value := (dht_humidity 0 0 50 60, dht_temperature 0 0 25 0) }) ∧
    ((dht_read_response_core
        { current_value := (101/2, 20), event_time := 0, differential := 1,
          hasCb := true } 4 22 0 0 0 50 60 25 0 9).2 ≠ [] ↔
      (((101/2 : Rat), (20 : Rat)).1 ≠ dht_humidity 0 0 50 60 ∧
        |dht_humidity 0 0 50 60 - ((101/2 : Rat), (20 : Rat)).1| ≥ 1) ∨
      (((101/2 : Rat), (20 : Rat)).1 = dht_humidity 0 0 50 60 ∧
        ((101/2 : Rat), (20 : Rat)).2 ≠ dht_temperature 0 0 25 0 ∧
        |dht_temperature 0 0 25 0 - ((101/2 : Rat), (20 : Rat)).2| ≥ 1))) :=
  ⟨rfl, c5_dht_callback_iff_humidity_gate _ 4 22 0 0 0 50 60 25 0 9 rfl⟩

/-- C8 counterexample: two i2c_read calls for address 83 with different
callbacks (1 then 2): the map afterwards still holds callback 1 — the
first registration wins, not the second. -/
theorem c8_second_i2c_registration_keeps_first_callback :
    (i2c_read (i2c_read [] 83 (some 50) 6 (some 1)).1 83 (some 50) 6 (some 2)).1 =
      [(83, { value := none, callback := some 1 })] ∧
    (some 1 : Option Nat) ≠ some 2 :=
  ⟨rfl, by decide⟩

/-- C8 amended: the first registration wins.  `_i2c_read_request`
creates the map entry (and stores the callback) only when the address is
not yet in the map, so a second read request on the same address — via
any of i2c_read, i2c_read_continuous or i2c_read_restart_transmission —
leaves the existing entry, including its callback, unchanged. -/
theorem c8_first_i2c_registration_wins (m : List (Nat × I2cEntry)) (address : Nat)
    (reg1 reg2 : Option Nat) (n1 n2 : Nat) (cb1 cb2 : Option Nat)
    (hnew : dictContains m address = false) :
    dictGet (i2c_read m address reg1 n1 cb1).1 address
        = some { value := none, callback := cb1 } ∧
    (i2c_read (i2c_read m address reg1 n1 cb1).1 address reg2 n2 cb2).1
        = (i2c_read m address reg1 n1 cb1).1 ∧
    (i2c_read_continuous (i2c_read m address reg1 n1 cb1).1 address reg2 n2 cb2).1
        = (i2c_read m address reg1 n1 cb1).1 ∧
    (i2c_read_restart_transmission (i2c_read m address reg1 n1 cb1).1
        address reg2 n2 cb2).1 = (i2c_read m address reg1 n1 cb1).1 := by
  unfold i2c_read i2c_read_continuous i2c_read_restart_transmission
    i2c_read_request
  rw [hnew]
  simp only [Bool.false_eq_true, if_false]
  refine ⟨dictGet_dictSet_self m address _, ?_, ?_, ?_⟩ <;>
    simp [dictContains_dictSet_self]

/-- Witness for c8_first_i2c_registration_wins: empty map, address 83,
register 50, six bytes, callbacks 1 then 2. -/
theorem c8_first_i2c_registration_wins_witness :
    dictContains ([] : List (Nat × I2cEntry)) 83 = false ∧
    dictGet (i2c_read [] 83 (some 50) 6 (some 1)).1 83
        = some { value := none, callback := some 1 } :=
  ⟨rfl, (c8_first_i2c_registration_wins [] 83 (some 50) (some 50) 6 6
    (some 1) (some 2) rfl).1⟩

/-- The wrapper's SerialException branch leaves the port closed. -/
theorem fail_branch_serial_closed (st : ShutdownState) :
    (serial_write_fail_branch st).serial_closed = true := by
  unfold serial_write_fail_branch
  by_cases hcl : st.close_loop_on_shutdown <;> simp [hcl]

/-- The wrapper's SerialException branch cancels the dispatcher task. -/
theorem fail_branch_dispatcher (st : ShutdownState) :
    (serial_write_fail_branch st).dispatcher_task = false := by
  unfold serial_write_fail_branch
  by_cases hcl : st.close_loop_on_shutdown <;> simp [hcl]

/-- The wrapper's SerialException branch changes no pin counts, flags or
task handles other than the port, loop and dispatcher fields. -/
theorem fail_branch_preserves (st : ShutdownState) :
    (serial_write_fail_branch st).analog_count = st.analog_count ∧
    (serial_write_fail_branch st).digital_count = st.digital_count ∧
    (serial_write_fail_branch st).first_analog_pin = st.first_analog_pin ∧
    (serial_write_fail_branch st).keep_alive_task = st.keep_alive_task ∧
    (serial_write_fail_branch st).close_loop_on_shutdown
      = st.close_loop_on_shutdown ∧
    (serial_write_fail_branch st).shutdown_flag = st.shutdown_flag := by
  unfold serial_write_fail_branch
  by_cases hcl : st.close_loop_on_shutdown <;> simp [hcl]

/-- Running the wrapper's SerialException branch twice equals running it
once. -/
theorem fail_branch_idem (st : ShutdownState) :
    serial_write_fail_branch (serial_write_fail_branch st)
      = serial_write_fail_branch st := by
  unfold serial_write_fail_branch
  by_cases hcl : st.close_loop_on_shutdown <;> simp [hcl]

/-- With an open, working port every character is written and the state
is untouched. -/
theorem send_command_open (st : ShutdownState) (h1 : st.serial_closed = false)
    (h2 : st.write_fails = false) :
    ∀ cmd, send_command st cmd = (st, cmd) := by
  intro cmd
  induction cmd with
  | nil => rfl
  | cons b rest ih =>
    simp [send_command, serial_write, h1, h2, ih]

/-- On a closed port nothing reaches pyserial: every write takes the
wrapper's swallowed-exception branch and the command returns normally
with no bytes written. -/
theorem send_command_closed :
    ∀ (cmd : List Nat) (st : ShutdownState), st.serial_closed = true →
      send_command st cmd
        = (if cmd.isEmpty then st else serial_write_fail_branch st, []) := by
  intro cmd
  induction cmd with
  | nil =>
    intro st h
    rfl
  | cons b rest ih =>
    intro st h
    have hw : serial_write st = (serial_write_fail_branch st, none) := by
      simp [serial_write, h]
    have hrec := ih (serial_write_fail_branch st) (fail_branch_serial_closed st)
    simp only [send_command, hw]
    rw [hrec]
    cases rest with
    | nil => simp
    | cons c cs => simp [fail_branch_idem]

/-- With an open, working transport every analog-disable iteration of
shutdown succeeds without changing the state. -/
theorem shutdown_analog_loop_open (st : ShutdownState)
    (h1 : st.serial_closed = false) (h2 : st.write_fails = false) :
    ∀ count, ∃ l, shutdown_analog_loop st count = (st, l) := by
  intro count
  induction count with
  | zero => exact ⟨[], rfl⟩
  | succ n ih =>
    obtain ⟨l, hl⟩ := ih
    refine ⟨l ++ [[SET_PIN_MODE, n + st.first_analog_pin, INPUT],
      [REPORT_DIGITAL + (n + st.first_analog_pin) / 8, REPORTING_ENABLE]], ?_⟩
    simp [shutdown_analog_loop, hl, disable_analog_reporting,
      send_command_open st h1 h2]

/-- With an open, working transport every digital-disable iteration of
shutdown succeeds without changing the state. -/
theorem shutdown_digital_loop_open (st : ShutdownState)
    (h1 : st.serial_closed = false) (h2 : st.write_fails = false) :
    ∀ count, ∃ l, shutdown_digital_loop st count = (st, l) := by
  intro count
  induction count with
  | zero => exact ⟨[], rfl⟩
  | succ n ih =>
    obtain ⟨l, hl⟩ := ih
    refine ⟨l ++ [[REPORT_DIGITAL + n / 8, REPORTING_DISABLE]], ?_⟩
    simp [shutdown_digital_loop, hl, disable_digital_reporting,
      send_command_open st h1 h2]

/-- On a closed port the digital-disable loop writes nothing and ends in
the wrapper's swallowed-exception state. -/
theorem shutdown_digital_loop_closed (st : ShutdownState)
    (h : st.serial_closed = true) :
    ∀ count, 0 < count →
      shutdown_digital_loop st count
        = (serial_write_fail_branch st, List.replicate count []) := by
  intro count
  induction count with
  | zero => intro hc; omega
  | succ n ih =>
    intro _
    have hd0 : disable_digital_reporting st n
        = (serial_write_fail_branch st, []) := by
      unfold disable_digital_reporting
      rw [send_command_closed _ st h]
      rfl
    have hdf : disable_digital_reporting (serial_write_fail_branch st) n
        = (serial_write_fail_branch st, []) := by
      unfold disable_digital_reporting
      rw [send_command_closed _ _ (fail_branch_serial_closed st)]
      simp [fail_branch_idem]
    by_cases hn : 0 < n
    · simp only [shutdown_digital_loop, ih hn, hdf]
      rw [List.replicate_succ']
    · have hn0 : n = 0 := by omega
      subst hn0
      simp [shutdown_digital_loop, hd0, List.replicate_succ]

/-- On a closed port the analog-disable loop writes nothing and ends in
the wrapper's swallowed-exception state. -/
theorem shutdown_analog_loop_closed (st : ShutdownState)
    (h : st.serial_closed = true) :
    ∀ count, 0 < count →
      shutdown_analog_loop st count
        = (serial_write_fail_branch st, List.replicate (2 * count) ([] : List Nat)) := by
  intro count
  induction count with
  | zero => intro hc; omega
  | succ n ih =>
    intro _
    have hd0 : ∀ st2 : ShutdownState, st2.serial_closed = true →
        disable_analog_reporting st2 n
          = (serial_write_fail_branch st2, [[], []]) := by
      intro st2 h2
      simp [disable_analog_reporting, send_command_closed, h2,
        fail_branch_serial_closed, fail_branch_idem]
    by_cases hn : 0 < n
    · simp only [shutdown_analog_loop, ih hn,
        hd0 (serial_write_fail_branch st) (fail_branch_serial_closed st),
        fail_branch_idem]
      have h2n : 2 * (n + 1) = 2 * n + 2 := by omega
      rw [h2n, List.replicate_add]
      rfl
    · have hn0 : n = 0 := by omega
      subst hn0
      simp [shutdown_analog_loop, hd0 st h]

/-- On a closed port the try block of shutdown writes nothing: the
SYSTEM_RESET write is swallowed in the wrapper and reset_input_buffer
raises the SerialException that shutdown's own except clause catches. -/
theorem shutdown_try_block_closed (st : ShutdownState)
    (h : st.serial_closed = true) :
    ∃ stf, shutdown_try_block st = (stf, []) ∧
      stf.dispatcher_task = false := by
  by_cases hcl : st.close_loop_on_shutdown
  · simp only [shutdown_try_block, hcl, if_true]
    rw [send_command_closed [SYSTEM_RESET]
      { st with close_loop_on_shutdown := true, loop_stopped := true } h]
    refine ⟨serial_write_fail_branch
      { st with close_loop_on_shutdown := true, loop_stopped := true },
      ?_, fail_branch_dispatcher _⟩
    simp [reset_input_buffer, fail_branch_serial_closed]
  · have hclf : st.close_loop_on_shutdown = false := by simpa using hcl
    simp only [shutdown_try_block, hclf, Bool.false_eq_true, if_false]
    rw [send_command_closed [SYSTEM_RESET] st h]
    refine ⟨serial_write_fail_branch st, ?_, fail_branch_dispatcher _⟩
    simp [reset_input_buffer, fail_branch_serial_closed]

/-- A shutdown call on a client whose port is already closed returns
normally, delivers no bytes to pyserial, and leaves the dispatcher task
cancelled (by the write wrapper's swallowed-exception branch). -/
theorem shutdown_closed_silent (st : ShutdownState)
    (h : st.serial_closed = true) (hd : 0 < st.digital_count) :
    (∀ w ∈ (shutdown st).2, w = ([] : List Nat)) ∧
      (shutdown st).1.dispatcher_task = false := by
  have hflag : ({ st with shutdown_flag := true } : ShutdownState).serial_closed
      = true := h
  obtain ⟨sa, la, hla, hsa, hsadc, hlae⟩ :
      ∃ sa la, shutdown_analog_loop { st with shutdown_flag := true }
          st.analog_count = (sa, la) ∧
        sa.serial_closed = true ∧ sa.digital_count = st.digital_count ∧
        ∀ w ∈ la, w = ([] : List Nat) := by
    by_cases ha : 0 < st.analog_count
    · exact ⟨_, _, shutdown_analog_loop_closed _ hflag _ ha,
        fail_branch_serial_closed _, (fail_branch_preserves _).2.1,
        fun w hw => List.eq_of_mem_replicate hw⟩
    · have ha0 : st.analog_count = 0 := by omega
      refine ⟨{ st with shutdown_flag := true }, [], ?_, h, rfl, by simp⟩
      rw [ha0]
      rfl
  obtain ⟨sd, ld, hld, hsd, hlde⟩ :
      ∃ sd ld, shutdown_digital_loop sa sa.digital_count = (sd, ld) ∧
        sd.serial_closed = true ∧ ∀ w ∈ ld, w = ([] : List Nat) := by
    refine ⟨serial_write_fail_branch sa, List.replicate st.digital_count [],
      ?_, fail_branch_serial_closed _,
      fun w hw => List.eq_of_mem_replicate hw⟩
    rw [hsadc]
    exact shutdown_digital_loop_closed sa hsa _ hd
  obtain ⟨stf, htb, hdt⟩ := shutdown_try_block_closed sd hsd
  simp only [shutdown]
  rw [hla, hld, htb]
  refine ⟨?_, hdt⟩
  intro w hw
  simp only [List.mem_append, List.mem_singleton] at hw
  rcases hw with (hw | hw) | hw
  · exact hlae w hw
  · exact hlde w hw
  · exact hw

/-- C6 counterexample: a client with one digital pin, no analog pins, a
live keep-alive task and a running dispatcher.  The first shutdown call
succeeds and leaves the keep-alive task uncancelled (refuting "cancels
the keep-alive task").  The second call does not behave the same as the
first: the port is now closed, so every write takes the serial
wrapper's swallowed-SerialException branch — no bytes reach pyserial
(the log holds only empty writes, against the first call's disable and
reset commands) and the dispatcher task is cancelled as a side effect —
refuting the idempotence part of the claim. -/
theorem c6_shutdown_keep_alive_survives_and_second_call_differs :
    shutdown ⟨false, 0, 1, 1, true, true, false, false, false, false, false⟩ =
      (⟨true, 0, 1, 1, true, true, false, false, false, true, false⟩,
       [[REPORT_DIGITAL, REPORTING_DISABLE], [SYSTEM_RESET]]) ∧
    (⟨true, 0, 1, 1, true, true, false, false, false, true, false⟩ :
        ShutdownState).keep_alive_task = true ∧
    shutdown ⟨true, 0, 1, 1, true, true, false, false, false, true, false⟩ =
      (⟨true, 0, 1, 1, true, false, false, false, false, true, false⟩,
       [[], []]) ∧
    (⟨true, 0, 1, 1, true, false, false, false, false, true, false⟩ :
        ShutdownState).dispatcher_task = false :=
  ⟨rfl, rfl, rfl, rfl⟩

/-- C6 amended: with an open, working transport, shutdown sets the
shutdown flag, sends the disable-reporting commands and SYSTEM_RESET,
and closes the serial port; no exception propagates — though not
because shutdown swallows them all: write errors are swallowed inside
PymataExpressSerial.write, and shutdown's own except clause covers the
reset/close steps.  It never cancels the keep-alive task.  A second
call is not equivalent to the first: with at least one digital pin it
delivers no bytes to pyserial and cancels the dispatcher task through
the write wrapper's swallowed-SerialException branch. -/
theorem c6_shutdown_closes_but_keeps_keep_alive (st : ShutdownState)
    (h1 : st.serial_closed = false) (h2 : st.write_fails = false) :
    (shutdown st).1.shutdown_flag = true ∧
    (shutdown st).1.serial_closed = true ∧
    (shutdown st).1.keep_alive_task = st.keep_alive_task ∧
    (shutdown st).1.dispatcher_task = st.dispatcher_task ∧
    [SYSTEM_RESET] ∈ (shutdown st).2 ∧
    (0 < st.digital_count →
      (∀ w ∈ (shutdown (shutdown st).1).2, w = ([] : List Nat)) ∧
      (shutdown (shutdown st).1).1.dispatcher_task = false) := by
  have h1a : ({ st with shutdown_flag := true } : ShutdownState).serial_closed
      = false := h1
  have h2a : ({ st with shutdown_flag := true } : ShutdownState).write_fails
      = false := h2
  obtain ⟨la, hla⟩ := shutdown_analog_loop_open
    ({ st with shutdown_flag := true } : ShutdownState) h1a h2a st.analog_count
  obtain ⟨ld, hld⟩ := shutdown_digital_loop_open
    ({ st with shutdown_flag := true } : ShutdownState) h1a h2a st.digital_count
  have hshut : ∀ stf : ShutdownState,
      shutdown_try_block ({ st with shutdown_flag := true } : ShutdownState)
        = (stf, [SYSTEM_RESET]) → shutdown st = (stf, la ++ ld ++ [[SYSTEM_RESET]]) := by
    intro stf htb
    simp only [shutdown]
    rw [hla, hld, htb]
  by_cases hcl : st.close_loop_on_shutdown
  · have htb : shutdown_try_block
        ({ st with shutdown_flag := true } : ShutdownState)
        = ({ st with
             shutdown_flag := true
             close_loop_on_shutdown := true
             loop_stopped := true
             loop_closed := true
             serial_closed := true }, [SYSTEM_RESET]) := by
      simp [shutdown_try_block, hcl, send_command_open, h1, h2,
        reset_input_buffer]
    rw [hshut _ htb]
    refine ⟨rfl, rfl, rfl, rfl, ?_, ?_⟩
    · exact List.mem_append.mpr (Or.inr (by simp))
    · intro hd
      exact shutdown_closed_silent _ rfl hd
  · have hclf : st.close_loop_on_shutdown = false := by simpa using hcl
    have htb : shutdown_try_block
        ({ st with shutdown_flag := true } : ShutdownState)
        = ({ st with
             shutdown_flag := true
             close_loop_on_shutdown := false
             serial_closed := true }, [SYSTEM_RESET]) := by
      simp [shutdown_try_block, hclf, send_command_open, h1, h2,
        reset_input_buffer]
    rw [hshut _ htb]
    refine ⟨rfl, rfl, rfl, rfl, ?_, ?_⟩
    · exact List.mem_append.mpr (Or.inr (by simp))
    · intro hd
      exact shutdown_closed_silent _ rfl hd

/-- Witness for c6_shutdown_closes_but_keeps_keep_alive at a concrete
client with two analog and three digital pins, a keep-alive task and a
running dispatcher. -/
theorem c6_shutdown_closes_witness :
    (⟨false, 2, 3, 1, true, true, false, false, false, false, false⟩ :
        ShutdownState).serial_closed = false ∧
    ((shutdown ⟨false, 2, 3, 1, true, true, false, false, false, false,
        false⟩).1.shutdown_flag = true ∧
    (shutdown ⟨false, 2, 3, 1, true, true, false, false, false, false,
        false⟩).1.serial_closed = true ∧
    (shutdown ⟨false, 2, 3, 1, true, true, false, false, false, false,
        false⟩).1.keep_alive_task =
      (⟨false, 2, 3, 1, true, true, false, false, false, false, false⟩ :
        ShutdownState).keep_alive_task ∧
    (shutdown ⟨false, 2, 3, 1, true, true, false, false, false, false,
        false⟩).1.dispatcher_task =
      (⟨false, 2, 3, 1, true, true, false, false, false, false, false⟩ :
        ShutdownState).dispatcher_task ∧
    [SYSTEM_RESET] ∈ (shutdown ⟨false, 2, 3, 1, true, true, false, false,
        false, false, false⟩).2 ∧
    (0 < (⟨false, 2, 3, 1, true, true, false, false, false, false, false⟩ :
        ShutdownState).digital_count →
      (∀ w ∈ (shutdown (shutdown ⟨false, 2, 3, 1, true, true, false, false,
          false, false, false⟩).1).2, w = ([] : List Nat)) ∧
      (shutdown (shutdown ⟨false, 2, 3, 1, true, true, false, false, false,
          false, false⟩).1).1.dispatcher_task = false)) :=
  ⟨rfl, c6_shutdown_closes_but_keeps_keep_alive _ rfl rfl⟩


/-- The digital-message loop leaves every index outside [pin, stop)
untouched. -/
theorem digital_message_loop_frame (now : Rat) (stop : Nat) :
    ∀ k pins port_data pin, stop - pin ≤ k →
      ∀ i : Nat, i < pin ∨ stop ≤ i →
        (digital_message_loop now stop pins port_data pin).1[i]? = pins[i]? := by
  intro k
  induction k with
  | zero =>
    intro pins port_data pin hk i hi
    rw [digital_message_loop, if_neg (by omega)]
  | succ n ih =>
    intro pins port_data pin hk i hi
    rw [digital_message_loop]
    by_cases hps : pin < stop
    · rw [if_pos hps]
      cases hq : pins[pin]? with
      | none => rfl
      | some pd0 =>
        simp only
        rw [ih (pins.set pin
            { pd0 with current_value := port_data &&& 1, event_time := now })
          (port_data >>> 1) (pin + 1) (by omega) i (by omega)]
        exact List.getElem?_set_ne (by omega)
    · rw [if_neg hps]

/-- Inside the loop's range, every pin record's current_value is
overwritten with its bit of port_data and event_time with the message
time — regardless of whether the bit changed. -/
theorem digital_message_loop_getElem (now : Rat) (stop : Nat) :
    ∀ k pins port_data pin, stop - pin ≤ k → stop ≤ pins.length →
      ∀ i pd, pin ≤ i → i < stop → pins[i]? = some pd →
        (digital_message_loop now stop pins port_data pin).1[i]? =
          some { pd with
                 current_value := (port_data >>> (i - pin)) &&& 1,
                 event_time := now } := by
  intro k
  induction k with
  | zero =>
    intro pins port_data pin hk hlen i pd h1 h2 hp
    omega
  | succ n ih =>
    intro pins port_data pin hk hlen i pd h1 h2 hp
    have hps : pin < stop := by omega
    rw [digital_message_loop, if_pos hps]
    cases hq : pins[pin]? with
    | none =>
      exfalso
      have := List.getElem?_eq_none_iff.mp hq
      omega
    | some pd0 =>
      simp only
      by_cases hip : i = pin
      · subst hip
        rw [hp] at hq
        injection hq with hq0
        subst hq0
        rw [digital_message_loop_frame now stop n
          (pins.set i { pd with
            current_value := port_data &&& 1, event_time := now })
          (port_data >>> 1) (i + 1) (by omega) i (by omega)]
        rw [List.getElem?_set_self (by omega)]
        simp
      · have hset : (pins.set pin
            { pd0 with
              current_value := port_data &&& 1, event_time := now })[i]?
            = some pd := by
          rw [List.getElem?_set_ne (by omega)]
          exact hp
        rw [ih (pins.set pin
            { pd0 with current_value := port_data &&& 1, event_time := now })
          (port_data >>> 1) (pin + 1) (by omega) (by simpa using hlen)
          i pd (by omega) h2 hset]
        have hshift : (port_data >>> 1) >>> (i - (pin + 1))
            = port_data >>> (i - pin) := by
          rw [← Nat.shiftRight_add]
          congr 1
          omega
        rw [hshift]

/-- When every pin in range already stores its bit of port_data, the
loop fires no callback at all (values and timestamps are still
rewritten). -/
theorem digital_message_loop_silent (now : Rat) (stop : Nat) :
    ∀ k pins port_data pin, stop - pin ≤ k →
      (∀ i pd, pin ≤ i → i < stop → pins[i]? = some pd →
        pd.current_value = (port_data >>> (i - pin)) &&& 1) →
      (digital_message_loop now stop pins port_data pin).2 = [] := by
  intro k
  induction k with
  | zero =>
    intro pins port_data pin hk hall
    rw [digital_message_loop, if_neg (by omega)]
  | succ n ih =>
    intro pins port_data pin hk hall
    rw [digital_message_loop]
    by_cases hps : pin < stop
    · rw [if_pos hps]
      cases hq : pins[pin]? with
      | none => rfl
      | some pd0 =>
        simp only
        have hv : pd0.current_value = port_data &&& 1 := by
          have h0 := hall pin pd0 le_rfl hps hq
          simpa using h0
        rw [if_neg (by simp [hv])]
        simp only [List.nil_append]
        refine ih (pins.set pin
            { pd0 with current_value := port_data &&& 1, event_time := now })
          (port_data >>> 1) (pin + 1) (by omega) ?_
        intro i pd hi1 hi2 hpi
        rw [List.getElem?_set_ne (by omega)] at hpi
        have h1 := hall i pd (by omega) hi2 hpi
        rw [h1, ← Nat.shiftRight_add]
        congr 2
        omega
    · rw [if_neg hps]

/-- C10: an inbound digital port message overwrites current_value with
the pin's bit of the decoded mask and sets event_time to the message
time for every existing pin of the addressed port — also for pins whose
reported bit equals the stored value, as observable through
digital_read — and replaying a message whose mask matches every stored
value fires zero callbacks while still refreshing the timestamps. -/
theorem c10_digital_message_overwrites_and_replay_is_silent
    (pins : List PinData) (port lsb msb : Nat) (now : Rat) (i : Nat)
    (pd : PinData) (h1 : port * 8 ≤ i)
    (h2 : i < min (port * 8 + 8) pins.length) (hp : pins[i]? = some pd) :
    digital_read (digital_message pins port lsb msb now).1 i =
      some ((((msb <<< 7) + lsb) >>> (i - port * 8)) &&& 1, now) ∧
    ((∀ j q, port * 8 ≤ j → j < min (port * 8 + 8) pins.length →
        pins[j]? = some q →
        q.current_value = (((msb <<< 7) + lsb) >>> (j - port * 8)) &&& 1) →
      (digital_message pins port lsb msb now).2 = []) := by
  constructor
  · unfold digital_read digital_message
    rw [digital_message_loop_getElem now (min (port * 8 + 8) pins.length)
      (min (port * 8 + 8) pins.length) pins ((msb <<< 7) + lsb) (port * 8)
      (Nat.sub_le _ _) (min_le_right _ _) i pd h1 h2 hp]
  · intro hall
    unfold digital_message
    exact digital_message_loop_silent now (min (port * 8 + 8) pins.length)
      (min (port * 8 + 8) pins.length) pins ((msb <<< 7) + lsb) (port * 8)
      (Nat.sub_le _ _) hall

/-- Witness for c10_digital_message_overwrites_and_replay_is_silent: a
two-pin table receiving the port-0 message with mask 1 (pin 0 already
stores 1, so the mask is unchanged), queried at pin 0. -/
theorem c10_digital_message_witness :
    (0 : Nat) * 8 ≤ 0 ∧
    0 < min (0 * 8 + 8)
      ([⟨1, 0, false, true⟩, ⟨0, 0, true, true⟩] : List PinData).length ∧
    ([⟨1, 0, false, true⟩, ⟨0, 0, true, true⟩] : List PinData)[0]? =
      some ⟨1, 0, false, true⟩ ∧
    (digital_read
        (digital_message [⟨1, 0, false, true⟩, ⟨0, 0, true, true⟩] 0 1 0 7).1 0 =
      some ((((0 <<< 7) + 1) >>> (0 - 0 * 8)) &&& 1, 7) ∧
    ((∀ j q, 0 * 8 ≤ j →
        j < min (0 * 8 + 8)
          ([⟨1, 0, false, true⟩, ⟨0, 0, true, true⟩] : List PinData).length →
        ([⟨1, 0, false, true⟩, ⟨0, 0, true, true⟩] : List PinData)[j]? = some q →
        q.current_value = (((0 <<< 7) + 1) >>> (j - 0 * 8)) &&& 1) →
      (digital_message [⟨1, 0, false, true⟩, ⟨0, 0, true, true⟩] 0 1 0 7).2
        = [])) :=
  ⟨Nat.le_refl 0, by simp, rfl,
    c10_digital_message_overwrites_and_replay_is_silent
      [⟨1, 0, false, true⟩, ⟨0, 0, true, true⟩] 0 1 0 7 0
      ⟨1, 0, false, true⟩ (Nat.le_refl 0) (by simp) rfl⟩

/-- C9: for every integer v in [0, 16383], encoding v as the two 7-bit
data bytes of the outbound analog message (as `pwm_write` does) and
decoding them as the analog message handler does yields v again. -/
theorem c9_seven_bit_roundtrip (v : Nat) (h : v ≤ 16383) :
    analog_message_value
      ((pwm_write_command 0 v).getD 1 0)
      ((pwm_write_command 0 v).getD 2 0) = v := by
  show (((v >>> 7) &&& 0x7f) <<< 7) + (v &&& 0x7f) = v
  have e1 : v &&& 0x7f = v % 2 ^ 7 := by
    rw [show (0x7f : Nat) = 2 ^ 7 - 1 from by norm_num,
      Nat.and_pow_two_sub_one_eq_mod]
  have e2 : (v >>> 7) &&& 0x7f = (v / 2 ^ 7) % 2 ^ 7 := by
    rw [show (0x7f : Nat) = 2 ^ 7 - 1 from by norm_num,
      Nat.and_pow_two_sub_one_eq_mod, Nat.shiftRight_eq_div_pow]
  rw [e1, e2, Nat.shiftLeft_eq]
  have hv : v < 2 ^ 14 := by omega
  have : v / 2 ^ 7 < 2 ^ 7 := by
    apply Nat.div_lt_of_lt_mul
    omega
  rw [Nat.mod_eq_of_lt this]
  omega

/-- Witness for c9_seven_bit_roundtrip at v = 12345. -/
theorem c9_seven_bit_roundtrip_witness :
    12345 ≤ 16383 ∧
      analog_message_value
        ((pwm_write_command 0 12345).getD 1 0)
        ((pwm_write_command 0 12345).getD 2 0) = 12345 :=
  ⟨by decide, c9_seven_bit_roundtrip 12345 (by decide)⟩

/-- C1 (code bug): on a fresh client (empty `spi_requests`,
`spi_request_id = 0`), `spi_transfer(1, 0, True, [5], cb)` stores the
entry under id 0, sends the transfer SysEx exactly once and advances the
request id to 1 — yet still invokes the caller's callback with the
failure value, because the `while` loop has no `break` and so its `else`
clause always runs.  The claim (and the verb's own docstring) say the
callback reports failure only when no request id is free. -/
theorem c1_spi_transfer_failure_callback_fires_on_success :
    spi_transfer initSpiState 1 0 1 [5] 42 =
      some { state := { spi_requests := [(0, { callback := 42, skip_read := false })],
                        spi_request_id := 1,
                        spi_read_requests := none },
             sent := [sendSysexBytes SPI_DATA [SPI_TRANSFER, 8, 0, 1, 1, 5]],
             failure_cb := true } := by
  decide

/-- C2 (code bug): every inbound SPI reply raises AttributeError, because
`_spi_reply` reads `self.spi_read_requests`, an attribute `__init__`
never creates (the registry is called `spi_requests`); no lookup, drop,
deletion or callback ever happens. -/
theorem c2_spi_reply_raises_attribute_error (st : SpiState) (rid : Nat)
    (rest : List Nat) (now : Rat) (h : st.spi_read_requests = none) :
    spi_reply st ((SPI_DATA :: rid :: rest) ++ [END_SYSEX]) now =
      .error .attributeError := by
  unfold spi_reply
  have hd : (((SPI_DATA :: rid :: rest) ++ [END_SYSEX]).drop 1).dropLast
      = rid :: rest := by
    show ((rid :: rest) ++ [END_SYSEX]).dropLast = rid :: rest
    exact List.dropLast_concat
  rw [hd, h]
  rfl

/-- Witness for c2_spi_reply_raises_attribute_error: the state left by a
successful spi_transfer (request 0 pending) receives the reply
`F0 68 00 F7`. -/
theorem c2_spi_reply_raises_attribute_error_witness :
    ({ spi_requests := [(0, { callback := 42, skip_read := false })],
       spi_request_id := 1, spi_read_requests := none } : SpiState).spi_read_requests
        = none ∧
    spi_reply { spi_requests := [(0, { callback := 42, skip_read := false })],
                spi_request_id := 1, spi_read_requests := none }
        ((SPI_DATA :: 0 :: []) ++ [END_SYSEX]) 10 = .error .attributeError :=
  ⟨rfl, c2_spi_reply_raises_attribute_error _ 0 [] 10 rfl⟩

end PymataExpress
